import Mathlib

/-!
Verification of the hybrid retrieval-and-answer-generation pipeline of the
Astro-Scribe repository (`src/rag_system.py`, `src/agents.py`,
`src/document_processor.py`).

The Python code is shallowly embedded: every external capability (embedding
provider, document store, graph store, completion provider, chat store, the
JSON extraction performed by `re.search` + `json.loads`) is a field of the
`RAGSystem` structure, returning `Except String _` where the Python call can
raise and `Option _` where the Python helper already converts failure to
`None`.  Python floats are modelled as rationals; Python `round(x, 2)` is
modelled as round-half-to-even at two decimals.  Python dictionary fields that
may be absent are modelled as `Option`; a dynamically typed similarity value
is `SimVal` (a number, or a non-numeric value whose participation in
arithmetic or comparison raises `TypeError`).
-/

/-- A dynamically typed similarity value stored in a document / chunk record.
`num q` is an int or float; `other` is any non-numeric Python value, which
raises `TypeError` when summed or compared against a number. -/
inductive SimVal where
  | num (q : ℚ)
  | other
deriving DecidableEq, Repr

/-- A document record as returned by the document store
(`db_manager.search_similar_documents`).  Absent dictionary keys are `none`. -/
structure DocRec where
  title : Option String
  filename : Option String
  similarity : Option SimVal
  id : Option String
deriving DecidableEq, Repr

/-- A chunk record as returned by `db_manager.search_similar_chunks`. -/
structure ChunkRec where
  title : Option String
  filename : Option String
  similarity : Option SimVal
  chunk_index : Option ℤ
  id : Option String
deriving DecidableEq, Repr

/-- A knowledge-graph relationship item as produced by
`neo4j_manager.get_entity_relationships`; the pipeline only reads
`item.get('source', \x7b\x7d).get('name', ...)`. -/
structure KGItem where
  source_name : Option String
  target_name : Option String
  rel_type : Option String
deriving DecidableEq, Repr

/-- An entity search result from `neo4j_manager.search_graph`:
`\x7b'type': ..., 'data': \x7b'id': ...\x7d\x7d`. -/
structure GraphEntity where
  type : String
  data_id : Option String
deriving DecidableEq, Repr

/-- The JSON object extracted from the classification completion
(`classification` in `classify_query`); keys may be absent. -/
structure Classification where
  query_type : Option String
  key_concepts : Option (List String)
  constraints : Option (List (String × String))
deriving DecidableEq, Repr

/-- `SearchQuery` dataclass from `agents.py`. -/
structure SearchQuery where
  query : String
  query_type : String
  context : Option (List String)
  constraints : Option (List (String × String))
deriving DecidableEq, Repr

/-- A chat message in the agent transcript (`HumanMessage` / `AIMessage`). -/
inductive Message where
  | human (content : String)
  | ai (content : String)
deriving DecidableEq, Repr

/-- Content of a transcript message. -/
def Message.content : Message → String
  | .human c => c
  | .ai c => c

/-- The structured prompt sent to the Completion Provider by each call site.
Each constructor records the template used and the values substituted into it
by `prompt.format_messages`. -/
inductive Prompt where
  | search (query : String) (documents : List DocRec)
  | analyze (context : String) (kg_context : List KGItem)
  | synthesize (analysis : String) (query : String)
  | verify (response : String) (documents : List DocRec)
  | classify (query : String)
  | followUp (query : String) (answer : String)
deriving DecidableEq, Repr

/-- `AgentState` from `agents.py`: the state threaded through the LangGraph
pipeline.  `analysis` models `state["analysis"]["findings"]`; the initial
empty dict is `none`. -/
structure AgentState where
  messages : List Message
  next : String
  documents : List DocRec
  kg_context : List KGItem
  analysis : Option String
  response : String
deriving DecidableEq, Repr

/-- Result dictionary of `NASAResearchAgents.execute_search`: either the
`status: success` shape or the `status: error` shape. -/
inductive ExecResult where
  | success (result : String) (query : String) (num_docs_analyzed : ℕ)
      (kg_entities_considered : ℕ) (conversation_history : List String)
  | error (err : String) (query : String)
deriving DecidableEq, Repr

/-- One chunk produced by `DocumentProcessor.chunk_document`. -/
structure Chunk where
  content : String
  chunk_index : ℕ
  chunk_type : String
  word_count : ℕ
deriving DecidableEq, Repr

/-- One source citation built by `RAGSystem._extract_sources`.  Document
sources have no `chunk_index` key (`none`). -/
structure Source where
  type : String
  title : String
  filename : String
  similarity : SimVal
  id : Option String
  chunk_index : Option ℤ
deriving DecidableEq, Repr

/-- Payload of a combined evidence item (`'data'` key). -/
inductive CombinedData where
  | doc (d : DocRec)
  | chunk (c : ChunkRec)
  | kg (k : KGItem)
deriving DecidableEq, Repr

/-- One merged evidence item built by `RAGSystem._combine_search_results`. -/
structure Combined where
  type : String
  source : String
  data : CombinedData
  relevance_score : ℚ
  title : String
deriving DecidableEq, Repr

/-- The dictionary returned by `RAGSystem.hybrid_search`. -/
structure SearchResults where
  documents : List DocRec
  chunks : List ChunkRec
  knowledge_graph : List KGItem
  combined_results : List Combined
  query : String
  error : Option String
deriving DecidableEq, Repr

/-- The dictionary returned by `RAGSystem.generate_answer`. -/
structure AnswerData where
  answer : String
  sources : List Source
  follow_up_questions : List String
  query_type : String
  confidence : ℚ
deriving DecidableEq, Repr

/-- The dictionary returned by `RAGSystem.ask_question`.  On the error path
Python returns `search_results = \x7b\x7d`, modelled as `none`. -/
structure AnswerDict where
  query : String
  answer : String
  sources : List Source
  follow_up_questions : List String
  confidence : ℚ
  query_type : String
  num_sources : ℕ
  search_results : Option SearchResults
deriving DecidableEq, Repr

/-- The `RAGSystem` instance together with all external capabilities it
consumes.  `generate_embeddings` is `DocumentProcessor.generate_embeddings`,
which catches its own exceptions and returns `None` on any failure, hence
`Option`.  Store and provider calls that can raise return `Except`.  The two
`parse_first_json_*` fields model the pure `re.search` + `json.loads`
extraction of the first brace- resp. bracket-delimited JSON value; `none`
covers both "no match" and "json.loads raised" (the surrounding `except`
yields the same fallback). -/
structure RAGSystem where
  generate_embeddings : String → Option (List ℚ)
  search_similar_documents : List ℚ → ℕ → Except String (List DocRec)
  search_similar_chunks : List ℚ → ℕ → Except String (List ChunkRec)
  neo4j_driver : Bool
  neo4j_search_graph : String → ℕ → Except String (List GraphEntity)
  neo4j_get_entity_relationships : String → Except String (List KGItem)
  llm : Option (Prompt → Except String String)
  parse_first_json_object : String → Option Classification
  parse_first_json_array : String → Option (List String)
  add_chat_message : String → String → String → List Source → Except String Unit
  similarity_threshold : ℚ

/-! ## Helper operations modelling Python primitives -/

/-- Python `sum(xs)` over dynamically typed values: left fold, raising
`TypeError` at the first non-numeric element. -/
def pySum (l : List SimVal) : Except String ℚ :=
  l.foldlM (fun acc v =>
    match v with
    | .num q => .ok (acc + q)
    | .other => .error "TypeError") 0

/-- Python `len([s for s in xs if s > t])`: each comparison of a non-numeric
value against a float raises `TypeError`. -/
def pyCountGT (t : ℚ) (l : List SimVal) : Except String ℕ :=
  l.foldlM (fun acc v =>
    match v with
    | .num q => .ok (if t < q then acc + 1 else acc)
    | .other => .error "TypeError") 0

/-- Round a rational to the nearest integer, ties to even — the semantics of
Python's builtin `round`. -/
def roundHalfEven (q : ℚ) : ℤ :=
  if q - (⌊q⌋ : ℚ) < 1/2 then ⌊q⌋
  else if 1/2 < q - (⌊q⌋ : ℚ) then ⌊q⌋ + 1
  else if ⌊q⌋ % 2 = 0 then ⌊q⌋ else ⌊q⌋ + 1

/-- Python `round(x, 2)`. -/
def round2 (q : ℚ) : ℚ := (roundHalfEven (q * 100) : ℚ) / 100

/-- Extract the numeric value of a similarity; comparing or sorting a
non-numeric value against a number raises `TypeError`. -/
def simToQ : SimVal → Except String ℚ
  | .num q => .ok q
  | .other => .error "TypeError"

/-- The list comprehension
`[x for x in cands if x.get('similarity', 0) >= threshold]` used by both
vector searches: a non-numeric similarity raises `TypeError` out of the
comprehension. -/
def pyFilterGE {α : Type} (simOf : α → SimVal) (t : ℚ) :
    List α → Except String (List α)
  | [] => .ok []
  | x :: xs =>
    match simOf x with
    | .num q => do
        let rest ← pyFilterGE simOf t xs
        return if t ≤ q then x :: rest else rest
    | .other => .error "TypeError"

/-- Python `str.split()` with no argument: split on whitespace runs,
discarding empty pieces. -/
def pySplit (s : String) : List String :=
  (s.split Char.isWhitespace).filter (fun w => w ≠ "")

/-- Python `range(0, stop, step)` for positive `step`. -/
def pyRange (stop step : ℕ) : List ℕ :=
  if step = 0 then [] else List.range' 0 ((stop + step - 1) / step) step

/-- Descending comparison on relevance scores used to model
`combined.sort(key=lambda x: x['relevance_score'], reverse=True)`. -/
def combinedLE (a b : Combined) : Prop :=
  b.relevance_score ≤ a.relevance_score

instance : DecidableRel combinedLE :=
  fun a b => inferInstanceAs (Decidable (b.relevance_score ≤ a.relevance_score))

instance : IsTotal Combined combinedLE :=
  ⟨fun a b => le_total b.relevance_score a.relevance_score⟩

instance : IsTrans Combined combinedLE :=
  ⟨fun _ _ _ h1 h2 => le_trans h2 h1⟩

/-! ## `DocumentProcessor.chunk_document` -/

/-- One iteration of the `for i in range(...)` loop of
`DocumentProcessor.chunk_document`: slice `words[i : i + chunk_size]`, join
with spaces, and append a chunk whose index is `len(chunks)` unless the text
is whitespace-only. -/
def chunkStep (words : List String) (chunk_size : ℕ)
    (chunks : List Chunk) (i : ℕ) : List Chunk :=
  let chunk_words := (words.drop i).take chunk_size
  let chunk_text := String.intercalate " " chunk_words
  if chunk_text.trim ≠ "" then
    chunks ++ [{ content := chunk_text, chunk_index := chunks.length,
                 chunk_type := "text", word_count := chunk_words.length }]
  else chunks

/-- `DocumentProcessor.chunk_document` (`document_processor.py`).  When
`chunk_size ≤ overlap` the Python `range` either raises `ValueError`
(step 0, caught by the surrounding `except`, returning `[]`) or is empty
(negative step), so both cases yield `[]`. -/
def chunk_document (content : String) (chunk_size : ℕ := 1000)
    (overlap : ℕ := 200) : List Chunk :=
  let words := pySplit content
  let step := chunk_size - overlap
  if step = 0 then []
  else (pyRange words.length step).foldl (chunkStep words chunk_size) []

/-! ## Retriever (`RAGSystem.search_*`, `hybrid_search`) -/

/-- `RAGSystem.search_documents`.  The second component of the result records
the texts passed to `doc_processor.generate_embeddings`, to count Embedding
Provider invocations.  Any exception from the store or from comparing a
non-numeric similarity is caught by the `except` branch and yields `[]`. -/
def search_documents (sys : RAGSystem) (query : String) (limit : ℕ := 10) :
    List DocRec × List String :=
  let result :=
    match sys.generate_embeddings query with
    | none => []
    | some emb =>
      if emb.isEmpty then []
      else
        match sys.search_similar_documents emb limit with
        | .error _ => []
        | .ok similar_docs =>
          match pyFilterGE (fun d => d.similarity.getD (.num 0))
              sys.similarity_threshold similar_docs with
          | .error _ => []
          | .ok filtered_docs => filtered_docs
  (result, [query])

/-- `RAGSystem.search_chunks`; same structure as `search_documents`. -/
def search_chunks (sys : RAGSystem) (query : String) (limit : ℕ := 20) :
    List ChunkRec × List String :=
  let result :=
    match sys.generate_embeddings query with
    | none => []
    | some emb =>
      if emb.isEmpty then []
      else
        match sys.search_similar_chunks emb limit with
        | .error _ => []
        | .ok similar_chunks =>
          match pyFilterGE (fun c => c.similarity.getD (.num 0))
              sys.similarity_threshold similar_chunks with
          | .error _ => []
          | .ok filtered_chunks => filtered_chunks
  (result, [query])

/-- `RAGSystem.search_knowledge_graph`: entity search capped at 20, then the
relationships of every entity of type `'entity'` with an id; any raise is
caught and yields `[]`. -/
def search_knowledge_graph (sys : RAGSystem) (query : String) : List KGItem :=
  if !sys.neo4j_driver then []
  else
    match (do
      let entities ← sys.neo4j_search_graph query 20
      entities.foldlM (fun kg_context entity =>
        if entity.type = "entity" then
          match entity.data_id with
          | some entity_id => do
              let relationships ← sys.neo4j_get_entity_relationships entity_id
              return kg_context ++ relationships
          | none => return kg_context
        else
          return kg_context) ([] : List KGItem) : Except String (List KGItem)) with
    | .ok kg_context => kg_context
    | .error _ => []

/-- The unsorted `combined` list built by the three `for` loops of
`RAGSystem._combine_search_results` before the sort: documents, then chunks,
then knowledge-graph items, each knowledge-graph item with the fixed
relevance score 0.5. -/
def combinedUnsorted (docs : List DocRec) (chunks : List ChunkRec)
    (kg_context : List KGItem) : Except String (List Combined) := do
  let docItems ← docs.mapM (fun doc => do
    let s ← simToQ (doc.similarity.getD (.num 0))
    return { type := "document", source := "vector_search", data := .doc doc,
             relevance_score := s,
             title := doc.title.getD (doc.filename.getD "Unknown") : Combined })
  let chunkItems ← chunks.mapM (fun chunk => do
    let s ← simToQ (chunk.similarity.getD (.num 0))
    return { type := "chunk", source := "vector_search", data := .chunk chunk,
             relevance_score := s,
             title := chunk.filename.getD "Unknown" ++ " (chunk " ++
               toString (chunk.chunk_index.getD 0) ++ ")" : Combined })
  let kgItems := kg_context.map (fun kg_item =>
    { type := "knowledge_graph", source := "graph_search", data := .kg kg_item,
      relevance_score := 1/2,
      title := "KG: " ++ (kg_item.source_name.getD "Unknown relationship")
      : Combined })
  return docItems ++ chunkItems ++ kgItems

/-- `RAGSystem._combine_search_results`: build the combined list, then
`combined.sort(key=..., reverse=True)` — a stable descending sort, modelled
by insertion sort with the ≥-on-scores relation.  Sorting relevance scores
containing a non-numeric value raises `TypeError` (propagated to the caller's
`except`). -/
def combine_search_results (docs : List DocRec) (chunks : List ChunkRec)
    (kg_context : List KGItem) : Except String (List Combined) := do
  let combined ← combinedUnsorted docs chunks kg_context
  return List.insertionSort combinedLE combined

/-- `RAGSystem.hybrid_search`.  The second component accumulates the
embedding-provider invocation texts of the two vector searches.  A raise
inside the `try` block (only the sort can raise) is caught and yields the
all-empty result dictionary carrying the error message. -/
def hybrid_search (sys : RAGSystem) (query : String)
    (include_kg : Bool := true) : SearchResults × List String :=
  let docsT := search_documents sys query 10
  let chunksT := search_chunks sys query 20
  let relevant_docs := docsT.1
  let relevant_chunks := chunksT.1
  let kg_context := if include_kg then search_knowledge_graph sys query else []
  let trace := docsT.2 ++ chunksT.2
  match combine_search_results relevant_docs relevant_chunks kg_context with
  | .ok combined_results =>
      ({ documents := relevant_docs, chunks := relevant_chunks,
         knowledge_graph := kg_context, combined_results := combined_results,
         query := query, error := none }, trace)
  | .error e =>
      ({ documents := [], chunks := [], knowledge_graph := [],
         combined_results := [], query := query, error := some e }, trace)

/-! ## Reasoning pipeline (`agents.py`) -/

/-- Python `messages[-1]`: `IndexError` on an empty list. -/
def pyLast (l : List Message) : Except String Message :=
  match l.getLast? with
  | some m => .ok m
  | none => .error "IndexError"

/-- Python `messages[0]`: `IndexError` on an empty list. -/
def pyFirst (l : List Message) : Except String Message :=
  match l.head? with
  | some m => .ok m
  | none => .error "IndexError"

/-- `search_agent` node: prompt with the last transcript message and the
document evidence; append the completion to the transcript. -/
def search_agent (f : Prompt → Except String String) (state : AgentState) :
    Except String AgentState := do
  let lastMsg ← pyLast state.messages
  let response ← f (.search lastMsg.content state.documents)
  return { state with messages := state.messages ++ [.ai response] }

/-- `analysis_agent` node: prompt with the newline-joined transcript and the
knowledge-graph context; append the completion and record it as the analysis
findings. -/
def analysis_agent (f : Prompt → Except String String) (state : AgentState) :
    Except String AgentState := do
  let context := String.intercalate "\n" (state.messages.map Message.content)
  let response ← f (.analyze context state.kg_context)
  return { state with messages := state.messages ++ [.ai response],
                      analysis := some response }

/-- `synthesis_agent` node: prompt with `state["analysis"]["findings"]`
(`KeyError` when the analysis record is still empty) and the first transcript
message; append the completion and store it as the response. -/
def synthesis_agent (f : Prompt → Except String String) (state : AgentState) :
    Except String AgentState := do
  let findings ←
    match state.analysis with
    | some fs => Except.ok fs
    | none => Except.error "KeyError"
  let firstMsg ← pyFirst state.messages
  let response ← f (.synthesize findings firstMsg.content)
  return { state with messages := state.messages ++ [.ai response],
                      response := response }

/-- `fact_checker` node: prompt with the current response and the document
evidence; append the completion to the transcript.  The `response` field is
not reassigned. -/
def fact_checker (f : Prompt → Except String String) (state : AgentState) :
    Except String AgentState := do
  let response ← f (.verify state.response state.documents)
  return { state with messages := state.messages ++ [.ai response] }

/-- The compiled LangGraph: the linear chain
START → search → analyze → synthesize → verify → END. -/
def runPipeline (f : Prompt → Except String String) (state : AgentState) :
    Except String AgentState :=
  search_agent f state >>= analysis_agent f >>= synthesis_agent f >>=
    fact_checker f

/-- `NASAResearchAgents.execute_search`.  The agent graph exists exactly when
the LLM was initialized; a raise anywhere during graph execution is caught
and reported as a `status: error` dictionary. -/
def execute_search (sys : RAGSystem) (query : SearchQuery)
    (relevant_docs : List DocRec) (kg_context : List KGItem) : ExecResult :=
  match sys.llm with
  | none => .error "Agent graph not initialized" query.query
  | some f =>
    let initial_state : AgentState :=
      { messages := [.human query.query], next := "search",
        documents := relevant_docs, kg_context := kg_context,
        analysis := none, response := "" }
    match runPipeline f initial_state with
    | .ok final_state =>
        .success final_state.response query.query relevant_docs.length
          kg_context.length (final_state.messages.map Message.content)
    | .error e => .error e query.query

/-- `NASAResearchAgents.classify_query`: one completion request, extract the
first JSON object, fall back to `query_type='factual'` when the LLM is
absent, raises, or the JSON cannot be extracted/parsed. -/
def classify_query (sys : RAGSystem) (query_text : String) : SearchQuery :=
  match sys.llm with
  | none => { query := query_text, query_type := "factual",
              context := none, constraints := none }
  | some f =>
    match f (.classify query_text) with
    | .error _ => { query := query_text, query_type := "factual",
                    context := none, constraints := none }
    | .ok content =>
      match sys.parse_first_json_object content with
      | some classification =>
          { query := query_text,
            query_type := classification.query_type.getD "factual",
            context := some (classification.key_concepts.getD []),
            constraints := some (classification.constraints.getD []) }
      | none => { query := query_text, query_type := "factual",
                  context := none, constraints := none }

/-- `NASAResearchAgents.generate_follow_up_questions`: one completion request
over the query and the first 1000 characters of the answer; extract the first
JSON array and keep at most 5 questions; any failure yields `[]`. -/
def generate_follow_up_questions (sys : RAGSystem) (query : String)
    (answer : String) : List String :=
  match sys.llm with
  | none => []
  | some f =>
    match f (.followUp query (answer.take 1000)) with
    | .error _ => []
    | .ok content =>
      match sys.parse_first_json_array content with
      | some questions => questions.take 5
      | none => []

/-! ## Answer composer (`RAGSystem._extract_sources`,
`RAGSystem._calculate_confidence`, `RAGSystem.generate_answer`) -/

/-- The source dictionary appended for one retrieved document. -/
def docToSource (doc : DocRec) : Source :=
  { type := "document",
    title := doc.title.getD (doc.filename.getD "Unknown"),
    filename := doc.filename.getD "Unknown",
    similarity := doc.similarity.getD (.num 0),
    id := doc.id, chunk_index := none }

/-- The source dictionary appended for one retrieved chunk. -/
def chunkToSource (chunk : ChunkRec) : Source :=
  { type := "chunk",
    title := chunk.title.getD (chunk.filename.getD "Unknown"),
    filename := chunk.filename.getD "Unknown",
    similarity := chunk.similarity.getD (.num 0),
    id := chunk.id, chunk_index := some (chunk.chunk_index.getD 0) }

/-- `RAGSystem._extract_sources`: append one source per document, then one
per chunk, then `sources[:10]`. -/
def extract_sources (search_results : SearchResults) : List Source :=
  let sources := search_results.documents.foldl
    (fun sources doc => sources ++ [docToSource doc]) []
  let sources := search_results.chunks.foldl
    (fun sources chunk => sources ++ [chunkToSource chunk]) sources
  sources.take 10

/-- The `try` body of `RAGSystem._calculate_confidence`: average of all
similarity values of documents and chunks, plus a bonus of 0.1 per value
above 0.8 capped at 0.3, clamped to at most 1.0 and rounded to two decimals;
0.0 when there is no vector evidence.  Summing or comparing a non-numeric
similarity raises. -/
def calcConfidenceBody (search_results : SearchResults) : Except String ℚ := do
  let docs := search_results.documents
  let chunks := search_results.chunks
  if docs.isEmpty ∧ chunks.isEmpty then return 0
  else
    let doc_similarities := docs.map (fun d => d.similarity.getD (.num 0))
    let chunk_similarities := chunks.map (fun c => c.similarity.getD (.num 0))
    let all_similarities := doc_similarities ++ chunk_similarities
    if all_similarities.isEmpty then return 0
    else
      let s ← pySum all_similarities
      let avg_similarity := s / (all_similarities.length : ℚ)
      let num_good_sources ← pyCountGT (4/5) all_similarities
      let source_bonus := min ((num_good_sources : ℚ) * (1/10)) (3/10)
      let confidence := min (avg_similarity + source_bonus) 1
      return round2 confidence

/-- `RAGSystem._calculate_confidence`: the `except` branch returns 0.5. -/
def calculate_confidence (search_results : SearchResults) : ℚ :=
  match calcConfidenceBody search_results with
  | .ok confidence => confidence
  | .error _ => 1/2

/-- `RAGSystem.generate_answer`.  `classify_query` and `execute_search` catch
their own exceptions, and the rest of the body is pure, so the surrounding
`except` branch is unreachable; the two arms model the
`agent_result['status']` branch. -/
def generate_answer (sys : RAGSystem) (query : String)
    (search_results : SearchResults) : AnswerData :=
  let search_query := classify_query sys query
  let relevant_docs := search_results.documents
  let kg_context := search_results.knowledge_graph
  match execute_search sys search_query relevant_docs kg_context with
  | .success answer _ _ _ _ =>
      { answer := answer,
        sources := extract_sources search_results,
        follow_up_questions := generate_follow_up_questions sys query answer,
        query_type := search_query.query_type,
        confidence := calculate_confidence search_results }
  | .error e _ =>
      { answer := "I encountered an error while processing your query: " ++ e,
        sources := [], follow_up_questions := [],
        query_type := search_query.query_type, confidence := 0 }

/-! ## Query orchestrator (`RAGSystem.ask_question`) -/

/-- The `try` body of `RAGSystem.ask_question`: hybrid search, answer
generation, then — when a session id is given — the two chat-store appends,
whose raise propagates to the orchestrator boundary. -/
def askQuestionBody (sys : RAGSystem) (query : String)
    (session_id : Option String) : Except String AnswerDict := do
  let search_results := (hybrid_search sys query true).1
  let answer_data := generate_answer sys query search_results
  match session_id with
  | some sid => do
      sys.add_chat_message sid "user" query []
      sys.add_chat_message sid "assistant" answer_data.answer answer_data.sources
  | none => pure ()
  return { query := query,
           answer := answer_data.answer,
           sources := answer_data.sources,
           follow_up_questions := answer_data.follow_up_questions,
           confidence := answer_data.confidence,
           query_type := answer_data.query_type,
           num_sources := answer_data.sources.length,
           search_results := some search_results }

/-- `RAGSystem.ask_question`: the orchestrator boundary.  Any uncaught
exception is converted into the error-shaped answer dictionary; the function
is total, so it never raises to the caller. -/
def ask_question (sys : RAGSystem) (query : String)
    (session_id : Option String := none) : AnswerDict :=
  match askQuestionBody sys query session_id with
  | .ok answer => answer
  | .error e =>
      { query := query,
        answer := "I'm sorry, I encountered an error: " ++ e,
        sources := [], follow_up_questions := [], confidence := 0,
        query_type := "error", num_sources := 0, search_results := none }

/-! ## Lemmas and claim theorems -/

theorem chunkStep_index (words : List String) (chunk_size : ℕ)
    (chunks : List Chunk) (i : ℕ)
    (h : chunks.map Chunk.chunk_index = List.range chunks.length) :
    (chunkStep words chunk_size chunks i).map Chunk.chunk_index
      = List.range (chunkStep words chunk_size chunks i).length := by
  unfold chunkStep
  by_cases hc : (String.intercalate " " ((words.drop i).take chunk_size)).trim ≠ ""
  · simp [hc, h, List.range_succ]
  · simp [hc, h]

theorem chunkStep_foldl_index (words : List String) (chunk_size : ℕ)
    (is : List ℕ) (acc : List Chunk)
    (h : acc.map Chunk.chunk_index = List.range acc.length) :
    ((is.foldl (chunkStep words chunk_size) acc).map Chunk.chunk_index)
      = List.range (is.foldl (chunkStep words chunk_size) acc).length := by
  induction is generalizing acc with
  | nil => simpa using h
  | cons i is ih =>
      simp only [List.foldl_cons]
      exact ih _ (chunkStep_index words chunk_size acc i h)

/-- C9: for every non-empty document content string (and in fact for every
content string and chunking parameters), the chunk indices produced by
`chunk_document` form, in list order, exactly the contiguous zero-based
sequence `0..n-1` for `n` the number of chunks produced. -/
theorem chunk_document_positions (content : String) (chunk_size overlap : ℕ)
    (hne : content ≠ "") :
    (chunk_document content chunk_size overlap).map Chunk.chunk_index
      = List.range (chunk_document content chunk_size overlap).length := by
  unfold chunk_document
  by_cases hstep : chunk_size - overlap = 0
  · simp [hstep]
  · simp only [hstep, if_neg, ite_false]
    exact chunkStep_foldl_index _ _ _ [] (by simp)

theorem chunk_document_positions_witness :
    "microgravity affects bone density" ≠ "" ∧
    (chunk_document "microgravity affects bone density" 1000 200).map
        Chunk.chunk_index
      = List.range (chunk_document "microgravity affects bone density" 1000 200).length :=
  ⟨by decide, chunk_document_positions "microgravity affects bone density"
    1000 200 (by decide)⟩

theorem pyFilterGE_mem {α : Type} (simOf : α → SimVal) (t : ℚ)
    (l : List α) (out : List α) (h : pyFilterGE simOf t l = .ok out) :
    ∀ x ∈ out, ∃ q, simOf x = .num q ∧ t ≤ q := by
  induction l generalizing out with
  | nil =>
      intro x hx
      simp only [pyFilterGE] at h
      cases h
      simp at hx
  | cons a l ih =>
      intro x hx
      simp only [pyFilterGE] at h
      cases hsim : simOf a with
      | num q =>
          rw [hsim] at h
          cases hr : pyFilterGE simOf t l with
          | error e => rw [hr] at h; cases h
          | ok rest =>
              rw [hr] at h
              simp only [Except.bind, Except.pure] at h
              cases h
              by_cases hq : t ≤ q
              · rw [if_pos hq] at hx
                rcases List.mem_cons.mp hx with rfl | hx
                · exact ⟨q, hsim, hq⟩
                · exact ih rest hr x hx
              · rw [if_neg hq] at hx
                exact ih rest hr x hx
      | other => rw [hsim] at h; cases h

/-- C3: every item of the output of the Retriever's vector searches has a
numeric similarity value at least the configured threshold; no candidate
below the threshold appears. -/
theorem search_vector_threshold (sys : RAGSystem) (query : String)
    (dlimit climit : ℕ) :
    (∀ d ∈ (search_documents sys query dlimit).1,
       ∃ q, d.similarity.getD (.num 0) = .num q ∧ sys.similarity_threshold ≤ q) ∧
    (∀ c ∈ (search_chunks sys query climit).1,
       ∃ q, c.similarity.getD (.num 0) = .num q ∧ sys.similarity_threshold ≤ q) := by
  constructor
  · intro d hd
    unfold search_documents at hd
    dsimp only at hd
    cases hemb : sys.generate_embeddings query with
    | none => rw [hemb] at hd; simp at hd
    | some emb =>
        rw [hemb] at hd
        dsimp only at hd
        by_cases he : emb.isEmpty
        · rw [if_pos he] at hd; simp at hd
        · rw [if_neg he] at hd
          cases hstore : sys.search_similar_documents emb dlimit with
          | error e => rw [hstore] at hd; simp at hd
          | ok cands =>
              rw [hstore] at hd
              dsimp only at hd
              cases hf : pyFilterGE (fun d => d.similarity.getD (.num 0))
                  sys.similarity_threshold cands with
              | error e => rw [hf] at hd; simp at hd
              | ok fs =>
                  rw [hf] at hd
                  exact pyFilterGE_mem _ _ cands fs hf d hd
  · intro c hc
    unfold search_chunks at hc
    dsimp only at hc
    cases hemb : sys.generate_embeddings query with
    | none => rw [hemb] at hc; simp at hc
    | some emb =>
        rw [hemb] at hc
        dsimp only at hc
        by_cases he : emb.isEmpty
        · rw [if_pos he] at hc; simp at hc
        · rw [if_neg he] at hc
          cases hstore : sys.search_similar_chunks emb climit with
          | error e => rw [hstore] at hc; simp at hc
          | ok cands =>
              rw [hstore] at hc
              dsimp only at hc
              cases hf : pyFilterGE (fun c => c.similarity.getD (.num 0))
                  sys.similarity_threshold cands with
              | error e => rw [hf] at hc; simp at hc
              | ok fs =>
                  rw [hf] at hc
                  exact pyFilterGE_mem _ _ cands fs hf c hc

/-- Shared concrete capability bundle for witnesses: every store succeeds
with empty results, no LLM, no graph driver. -/
def baseSys : RAGSystem :=
  { generate_embeddings := fun _ => none,
    search_similar_documents := fun _ _ => .ok [],
    search_similar_chunks := fun _ _ => .ok [],
    neo4j_driver := false,
    neo4j_search_graph := fun _ _ => .ok [],
    neo4j_get_entity_relationships := fun _ => .ok [],
    llm := none,
    parse_first_json_object := fun _ => none,
    parse_first_json_array := fun _ => none,
    add_chat_message := fun _ _ _ _ => .ok (),
    similarity_threshold := 7/10 }

/-- A concrete high-similarity document record. -/
def docHigh : DocRec :=
  { title := some "Bone Density Study", filename := some "bone.pdf",
    similarity := some (.num (9/10)), id := some "doc-1" }

/-- A concrete below-threshold document record. -/
def docLow : DocRec :=
  { title := some "Unrelated Note", filename := some "note.pdf",
    similarity := some (.num (1/2)), id := some "doc-2" }

/-- A system whose document store offers one candidate above and one below
the 0.7 threshold. -/
def sysDocs : RAGSystem :=
  { baseSys with
    generate_embeddings := fun _ => some [1, 0],
    search_similar_documents := fun _ _ => .ok [docHigh, docLow] }

theorem search_documents_sysDocs :
    (search_documents sysDocs "bone" 10).1 = [docHigh] := by
  norm_num [search_documents, sysDocs, baseSys, docHigh, docLow, pyFilterGE,
    Except.bind]

theorem search_vector_threshold_witness :
    docHigh ∈ (search_documents sysDocs "bone" 10).1 ∧
    ∃ q, docHigh.similarity.getD (.num 0) = SimVal.num q ∧
      sysDocs.similarity_threshold ≤ q :=
  ⟨by rw [search_documents_sysDocs]; exact List.mem_singleton.mpr rfl,
   (search_vector_threshold sysDocs "bone" 10 20).1 docHigh
     (by rw [search_documents_sysDocs]; exact List.mem_singleton.mpr rfl)⟩

theorem roundHalfEven_nonneg (q : ℚ) (h : 0 ≤ q) : 0 ≤ roundHalfEven q := by
  unfold roundHalfEven
  have hf : (0 : ℤ) ≤ ⌊q⌋ := Int.floor_nonneg.mpr h
  by_cases h1 : q - (⌊q⌋ : ℚ) < 1/2
  · rw [if_pos h1]; exact hf
  · rw [if_neg h1]
    by_cases h2 : 1/2 < q - (⌊q⌋ : ℚ)
    · rw [if_pos h2]; omega
    · rw [if_neg h2]
      by_cases h3 : ⌊q⌋ % 2 = 0
      · rw [if_pos h3]; exact hf
      · rw [if_neg h3]; omega

theorem roundHalfEven_le_of_le (q : ℚ) (n : ℤ) (h : q ≤ (n : ℚ)) :
    roundHalfEven q ≤ n := by
  unfold roundHalfEven
  have hf : ⌊q⌋ ≤ n := by
    have h2 : ⌊q⌋ ≤ ⌊(n : ℚ)⌋ := Int.floor_le_floor h
    simpa using h2
  by_cases h1 : q - (⌊q⌋ : ℚ) < 1/2
  · rw [if_pos h1]; exact hf
  · rw [if_neg h1]
    have h2 : (⌊q⌋ : ℚ) + 1/2 ≤ q := by
      have h2' := not_lt.mp h1
      linarith
    have h3 : ⌊q⌋ < n := by
      have h3' : (⌊q⌋ : ℚ) < (n : ℚ) := by linarith
      exact_mod_cast h3'
    by_cases h4 : 1/2 < q - (⌊q⌋ : ℚ)
    · rw [if_pos h4]; omega
    · rw [if_neg h4]
      by_cases h5 : ⌊q⌋ % 2 = 0
      · rw [if_pos h5]; exact hf
      · rw [if_neg h5]; omega

theorem round2_bounds (q : ℚ) (h0 : 0 ≤ q) (h1 : q ≤ 1) :
    0 ≤ round2 q ∧ round2 q ≤ 1 := by
  unfold round2
  have ha : 0 ≤ roundHalfEven (q * 100) :=
    roundHalfEven_nonneg _ (by nlinarith)
  have hb : roundHalfEven (q * 100) ≤ 100 :=
    roundHalfEven_le_of_le _ 100 (by push_cast; nlinarith)
  constructor
  · apply div_nonneg _ (by norm_num)
    exact_mod_cast ha
  · rw [div_le_one (by norm_num)]
    exact_mod_cast hb

theorem pySum_map_num (qs : List ℚ) :
    pySum (qs.map SimVal.num) = .ok qs.sum := by
  unfold pySum
  suffices h : ∀ acc : ℚ,
      (qs.map SimVal.num).foldlM (fun acc v =>
        match v with
        | .num q => Except.ok (acc + q)
        | .other => Except.error "TypeError") acc = .ok (acc + qs.sum) by
    simpa using h 0
  induction qs with
  | nil => intro acc; simp only [List.map_nil, List.foldlM_nil, List.sum_nil, add_zero]; rfl
  | cons q qs ih =>
      intro acc
      simp only [List.map_cons, List.foldlM_cons, List.sum_cons]
      exact (ih (acc + q)).trans (by rw [add_assoc])

theorem pyCountGT_map_num (t : ℚ) (qs : List ℚ) :
    pyCountGT t (qs.map SimVal.num) = .ok (qs.countP (fun q => decide (t < q))) := by
  unfold pyCountGT
  suffices h : ∀ acc : ℕ,
      (qs.map SimVal.num).foldlM (fun acc v =>
        match v with
        | .num q => Except.ok (if t < q then acc + 1 else acc)
        | .other => Except.error "TypeError") acc
        = .ok (acc + qs.countP (fun q => decide (t < q))) by
    simpa using h 0
  induction qs with
  | nil =>
      intro acc
      simp only [List.map_nil, List.foldlM_nil, List.countP_nil, add_zero]
      rfl
  | cons q qs ih =>
      intro acc
      simp only [List.map_cons, List.foldlM_cons, List.countP_cons]
      by_cases hq : t < q
      · rw [if_pos hq]
        exact (ih (acc + 1)).trans (by simp [hq]; omega)
      · rw [if_neg hq]
        exact (ih acc).trans (by simp [hq])

theorem all_num_decompose (l : List SimVal) (P : ℚ → Prop)
    (h : ∀ v ∈ l, ∃ q, v = .num q ∧ P q) :
    ∃ qs : List ℚ, l = qs.map SimVal.num ∧ ∀ q ∈ qs, P q := by
  induction l with
  | nil => exact ⟨[], rfl, by simp⟩
  | cons v l ih =>
      obtain ⟨q, hq, hP⟩ := h v (List.mem_cons_self v l)
      obtain ⟨qs, hqs, hPs⟩ := ih (fun w hw => h w (List.mem_cons_of_mem v hw))
      refine ⟨q :: qs, by rw [hq, hqs]; rfl, ?_⟩
      intro x hx
      rcases List.mem_cons.mp hx with rfl | hx
      · exact hP
      · exact hPs x hx

theorem calcConfidenceBody_all_num (sr : SearchResults) (qs : List ℚ)
    (hqs : sr.documents.map (fun d => d.similarity.getD (.num 0))
        ++ sr.chunks.map (fun c => c.similarity.getD (.num 0))
        = qs.map SimVal.num) :
    calcConfidenceBody sr =
      if sr.documents.isEmpty ∧ sr.chunks.isEmpty then .ok 0
      else .ok (round2 (min (qs.sum / (qs.length : ℚ)
        + min ((qs.countP (fun q => decide (4/5 < q)) : ℚ) * (1/10)) (3/10)) 1)) := by
  unfold calcConfidenceBody
  dsimp only
  rw [hqs]
  by_cases hempty : sr.documents.isEmpty ∧ sr.chunks.isEmpty
  · rw [if_pos hempty, if_pos hempty]; rfl
  · rw [if_neg hempty, if_neg hempty]
    have hne : qs ≠ [] := by
      intro hnil
      apply hempty
      rw [hnil] at hqs
      simp only [List.map_nil] at hqs
      have := List.append_eq_nil.mp hqs
      constructor
      · rw [List.isEmpty_iff]
        cases hd : sr.documents with
        | nil => rfl
        | cons a l => rw [hd] at this; simp at this
      · rw [List.isEmpty_iff]
        cases hc : sr.chunks with
        | nil => rfl
        | cons a l => rw [hc] at this; simp at this
    rw [if_neg (show ¬((qs.map SimVal.num).isEmpty = true) by simp [hne])]
    rw [pySum_map_num, pyCountGT_map_num]
    simp only [List.length_map]
    rfl

/-- C2: for every retrieval result — document and chunk similarity values
numeric and nonnegative, as the retriever's threshold filter guarantees —
the composed confidence equals
`round(min(avg + min(0.1 k, 0.3), 1.0), 2)` with `avg` the mean of all
document and chunk similarity scores (kg_context excluded) and `k` the
number of scores above 0.8; it is exactly 0 when both evidence lists are
empty; and it always lies in `[0, 1]` with exactly two decimal places. -/
theorem calculate_confidence_spec (sr : SearchResults)
    (h : ∀ v ∈ sr.documents.map (fun d => d.similarity.getD (.num 0))
        ++ sr.chunks.map (fun c => c.similarity.getD (.num 0)),
      ∃ q, v = SimVal.num q ∧ 0 ≤ q) :
    (sr.documents = [] ∧ sr.chunks = [] → calculate_confidence sr = 0) ∧
    (∀ qs : List ℚ,
      sr.documents.map (fun d => d.similarity.getD (.num 0))
        ++ sr.chunks.map (fun c => c.similarity.getD (.num 0)) = qs.map SimVal.num →
      qs ≠ [] →
      calculate_confidence sr
        = round2 (min (qs.sum / (qs.length : ℚ)
            + min ((qs.countP (fun q => decide (4/5 < q)) : ℚ) * (1/10)) (3/10)) 1)) ∧
    (0 ≤ calculate_confidence sr ∧ calculate_confidence sr ≤ 1) ∧
    (∃ m : ℤ, calculate_confidence sr = (m : ℚ) / 100) := by
  obtain ⟨qs0, hqs0, hpos⟩ := all_num_decompose _ (fun q => 0 ≤ q) h
  have hbody := calcConfidenceBody_all_num sr qs0 hqs0
  have hinj : Function.Injective SimVal.num := fun a b hab => by
    cases hab; rfl
  by_cases hboth : sr.documents.isEmpty ∧ sr.chunks.isEmpty
  · have hcc : calculate_confidence sr = 0 := by
      unfold calculate_confidence
      rw [hbody, if_pos hboth]
    refine ⟨fun _ => hcc, ?_, ?_, ⟨0, by rw [hcc]; norm_num⟩⟩
    · intro qs hqs hneq
      exfalso
      apply hneq
      have hd : sr.documents = [] := List.isEmpty_iff.mp hboth.1
      have hc : sr.chunks = [] := List.isEmpty_iff.mp hboth.2
      rw [hd, hc] at hqs
      simp only [List.map_nil, List.nil_append] at hqs
      have : qs.map SimVal.num = [] := hqs.symm
      simpa using this
    · rw [hcc]; norm_num
  · have hne0 : qs0 ≠ [] := by
      intro hnil
      apply hboth
      rw [hnil] at hqs0
      simp only [List.map_nil] at hqs0
      have := List.append_eq_nil.mp hqs0
      exact ⟨by rw [List.isEmpty_iff]; exact List.map_eq_nil.mp this.1,
             by rw [List.isEmpty_iff]; exact List.map_eq_nil.mp this.2⟩
    have hcc : calculate_confidence sr
        = round2 (min (qs0.sum / (qs0.length : ℚ)
            + min ((qs0.countP (fun q => decide (4/5 < q)) : ℚ) * (1/10)) (3/10)) 1) := by
      unfold calculate_confidence
      rw [hbody, if_neg hboth]
    have hx0 : 0 ≤ min (qs0.sum / (qs0.length : ℚ)
        + min ((qs0.countP (fun q => decide (4/5 < q)) : ℚ) * (1/10)) (3/10)) 1 := by
      apply le_min _ zero_le_one
      apply add_nonneg
      · apply div_nonneg (List.sum_nonneg hpos)
        exact_mod_cast Nat.zero_le _
      · exact le_min (by positivity) (by norm_num)
    have hx1 : min (qs0.sum / (qs0.length : ℚ)
        + min ((qs0.countP (fun q => decide (4/5 < q)) : ℚ) * (1/10)) (3/10)) 1 ≤ 1 :=
      min_le_right _ _
    have hb := round2_bounds _ hx0 hx1
    refine ⟨?_, ?_, ?_, ?_⟩
    · intro ⟨hd, hc⟩
      exact absurd ⟨by rw [hd]; rfl, by rw [hc]; rfl⟩ hboth
    · intro qs hqs hneq
      have : qs.map SimVal.num = qs0.map SimVal.num := by rw [← hqs, ← hqs0]
      have hqq : qs = qs0 := (List.map_injective_iff.mpr hinj) this
      rw [hqq, hcc]
    · rw [hcc]; exact hb
    · rw [hcc]
      exact ⟨roundHalfEven ((min (qs0.sum / (qs0.length : ℚ)
        + min ((qs0.countP (fun q => decide (4/5 < q)) : ℚ) * (1/10)) (3/10)) 1) * 100), rfl⟩

/-- Concrete retrieval result with a single high-similarity document. -/
def srOneDoc : SearchResults :=
  { documents := [docHigh], chunks := [], knowledge_graph := [],
    combined_results := [], query := "bone", error := none }

theorem calculate_confidence_spec_witness :
    (srOneDoc.documents = [] ∧ srOneDoc.chunks = [] → calculate_confidence srOneDoc = 0) ∧
    (∀ qs : List ℚ,
      srOneDoc.documents.map (fun d => d.similarity.getD (.num 0))
        ++ srOneDoc.chunks.map (fun c => c.similarity.getD (.num 0)) = qs.map SimVal.num →
      qs ≠ [] →
      calculate_confidence srOneDoc
        = round2 (min (qs.sum / (qs.length : ℚ)
            + min ((qs.countP (fun q => decide (4/5 < q)) : ℚ) * (1/10)) (3/10)) 1)) ∧
    (0 ≤ calculate_confidence srOneDoc ∧ calculate_confidence srOneDoc ≤ 1) ∧
    (∃ m : ℤ, calculate_confidence srOneDoc = (m : ℚ) / 100) :=
  calculate_confidence_spec srOneDoc (by
    intro v hv
    simp only [srOneDoc, docHigh, List.map_cons, List.map_nil,
      List.append_nil, List.mem_singleton] at hv
    subst hv
    exact ⟨9/10, rfl, by norm_num⟩)

/-- C10: when the body of `_calculate_confidence` raises an internal
exception (for example a non-numeric similarity value in the search-results
structure), the function returns exactly 0.5, not the 0.0 of the documented
failure paths. -/
theorem calculate_confidence_internal_error (sr : SearchResults) (e : String)
    (h : calcConfidenceBody sr = .error e) :
    calculate_confidence sr = 1/2 ∧ ((1 : ℚ)/2 ≠ 0) := by
  unfold calculate_confidence
  rw [h]
  exact ⟨rfl, by norm_num⟩

/-- A document record carrying a non-numeric similarity value. -/
def docBad : DocRec :=
  { title := some "Bad", filename := some "bad.pdf",
    similarity := some .other, id := some "doc-x" }

/-- A retrieval-results dictionary whose only document carries a
non-numeric similarity value. -/
def srMalformed : SearchResults :=
  { documents := [docBad], chunks := [], knowledge_graph := [],
    combined_results := [], query := "bone", error := none }

theorem calculate_confidence_internal_error_witness :
    calculate_confidence srMalformed = 1/2 ∧ ((1 : ℚ)/2 ≠ 0) :=
  calculate_confidence_internal_error srMalformed "TypeError"
    (by unfold calcConfidenceBody srMalformed docBad; rfl)

theorem foldl_append_singleton {α β : Type} (f : α → β) (l : List α)
    (init : List β) :
    l.foldl (fun acc x => acc ++ [f x]) init = init ++ l.map f := by
  induction l generalizing init with
  | nil => simp
  | cons a l ih => simp [ih, List.append_assoc]

/-- C5: the source list is one entry per retrieved document followed by one
entry per retrieved chunk, each group in its incoming order, truncated to
the first 10 after concatenation and not re-sorted; titles fall back to the
filename, and chunk entries carry their position index. -/
theorem extract_sources_spec (sr : SearchResults) :
    extract_sources sr
      = (sr.documents.map docToSource ++ sr.chunks.map chunkToSource).take 10 ∧
    (extract_sources sr).length ≤ 10 ∧
    (∀ d : DocRec, (docToSource d).title = d.title.getD (d.filename.getD "Unknown")
      ∧ (docToSource d).chunk_index = none) ∧
    (∀ c : ChunkRec, (chunkToSource c).title = c.title.getD (c.filename.getD "Unknown")
      ∧ (chunkToSource c).chunk_index = some (c.chunk_index.getD 0)) := by
  have hmain : extract_sources sr
      = (sr.documents.map docToSource ++ sr.chunks.map chunkToSource).take 10 := by
    unfold extract_sources
    dsimp only
    rw [foldl_append_singleton, foldl_append_singleton]
    simp
  refine ⟨hmain, ?_, fun d => ⟨rfl, rfl⟩, fun c => ⟨rfl, rfl⟩⟩
  rw [hmain]
  exact List.length_take_le 10 _

theorem except_bind_ok {α β : Type} {x : Except String α}
    {g : α → Except String β} {b : β} (h : (x >>= g) = .ok b) :
    ∃ a, x = .ok a ∧ g a = .ok b := by
  cases x with
  | error e => cases h
  | ok a => exact ⟨a, rfl, h⟩

theorem mapM_ok_mem {α β : Type} (f : α → Except String β) (l : List α)
    (out : List β) (h : l.mapM f = .ok out) :
    ∀ y ∈ out, ∃ x ∈ l, f x = .ok y := by
  induction l generalizing out with
  | nil =>
      rw [List.mapM_nil] at h
      cases h
      intro y hy
      simp at hy
  | cons a l ih =>
      rw [List.mapM_cons] at h
      obtain ⟨b, hfa, h2⟩ := except_bind_ok h
      obtain ⟨bs, hml, h3⟩ := except_bind_ok h2
      cases h3
      intro y hy
      rcases List.mem_cons.mp hy with rfl | hy
      · exact ⟨a, List.mem_cons_self a l, hfa⟩
      · obtain ⟨x, hx, hfx⟩ := ih bs hml y hy
        exact ⟨x, List.mem_cons_of_mem a hx, hfx⟩

theorem combinedUnsorted_graph_score (docs : List DocRec)
    (chunks : List ChunkRec) (kg : List KGItem) (u : List Combined)
    (h : combinedUnsorted docs chunks kg = .ok u) :
    ∀ x ∈ u, x.source = "graph_search" → x.relevance_score = 1/2 := by
  unfold combinedUnsorted at h
  obtain ⟨dItems, hd, h2⟩ := except_bind_ok h
  obtain ⟨cItems, hc, h3⟩ := except_bind_ok h2
  cases h3
  intro x hx hsrc
  rcases List.mem_append.mp hx with hx' | hxk
  · rcases List.mem_append.mp hx' with hxd | hxc
    · obtain ⟨doc, _, hf⟩ := mapM_ok_mem _ docs dItems hd x hxd
      obtain ⟨s, _, hpure⟩ := except_bind_ok hf
      cases hpure
      simp at hsrc
    · obtain ⟨chunk, _, hf⟩ := mapM_ok_mem _ chunks cItems hc x hxc
      obtain ⟨s, _, hpure⟩ := except_bind_ok hf
      cases hpure
      simp at hsrc
  · obtain ⟨k, _, hk⟩ := List.mem_map.mp hxk
    rw [← hk]

theorem filter_orderedInsert_score (a : Combined) (l : List Combined) (s : ℚ) :
    (List.orderedInsert combinedLE a l).filter
        (fun y => decide (y.relevance_score = s))
      = if a.relevance_score = s
        then a :: l.filter (fun y => decide (y.relevance_score = s))
        else l.filter (fun y => decide (y.relevance_score = s)) := by
  induction l with
  | nil =>
      by_cases has : a.relevance_score = s <;>
        simp [List.orderedInsert, has]
  | cons b l ih =>
      simp only [List.orderedInsert]
      by_cases hr : combinedLE a b
      · rw [if_pos hr]
        by_cases has : a.relevance_score = s <;>
          by_cases hbs : b.relevance_score = s <;>
            simp [List.filter_cons, has, hbs]
      · rw [if_neg hr]
        have hb : a.relevance_score < b.relevance_score := not_le.mp hr
        by_cases has : a.relevance_score = s
        · have hbs : ¬(b.relevance_score = s) := by
            rw [← has]
            exact fun heq => absurd heq.symm (ne_of_lt hb)
          simp [List.filter_cons, has, hbs, ih]
        · by_cases hbs : b.relevance_score = s <;>
            simp [List.filter_cons, has, hbs, ih]

theorem filter_insertionSort_score (l : List Combined) (s : ℚ) :
    (List.insertionSort combinedLE l).filter
        (fun y => decide (y.relevance_score = s))
      = l.filter (fun y => decide (y.relevance_score = s)) := by
  induction l with
  | nil => rfl
  | cons a l ih =>
      simp only [List.insertionSort]
      rw [filter_orderedInsert_score]
      by_cases has : a.relevance_score = s <;>
        simp [List.filter_cons, has, ih]

/-- C6: in the merged evidence list, every knowledge-graph item carries the
fixed relevance score 0.5; the combined list is sorted by relevance
descending; and the sort is stable — for every score, the items at that
score appear in exactly their order in the unsorted concatenation (so two
merges of identical inputs give identical orderings). -/
theorem combine_results_spec (docs : List DocRec) (chunks : List ChunkRec)
    (kg : List KGItem) (out : List Combined)
    (h : combine_search_results docs chunks kg = .ok out) :
    (∀ x ∈ out, x.source = "graph_search" → x.relevance_score = 1/2) ∧
    List.Sorted combinedLE out ∧
    (∃ u, combinedUnsorted docs chunks kg = .ok u ∧
      out = List.insertionSort combinedLE u ∧
      ∀ s : ℚ, out.filter (fun y => decide (y.relevance_score = s))
        = u.filter (fun y => decide (y.relevance_score = s))) := by
  unfold combine_search_results at h
  obtain ⟨u, hu, hret⟩ := except_bind_ok h
  cases hret
  refine ⟨?_, ?_, u, hu, rfl, fun s => filter_insertionSort_score u s⟩
  · intro x hx hsrc
    have hxu : x ∈ u := (List.perm_insertionSort combinedLE u).subset hx
    exact combinedUnsorted_graph_score docs chunks kg u hu x hxu hsrc
  · exact List.sorted_insertionSort combinedLE u

/-- A concrete knowledge-graph relationship. -/
def kgRel : KGItem :=
  { source_name := some "Mouse", target_name := some "Microgravity Chamber",
    rel_type := some "STUDIES" }

/-- The merged evidence list for a knowledge-graph-only retrieval. -/
def combineOutKG : List Combined :=
  [{ type := "knowledge_graph", source := "graph_search", data := .kg kgRel,
     relevance_score := 1/2, title := "KG: Mouse" }]

theorem combine_results_spec_witness :
    (∀ x ∈ combineOutKG, x.source = "graph_search" → x.relevance_score = 1/2) ∧
    List.Sorted combinedLE combineOutKG ∧
    (∃ u, combinedUnsorted [] [] [kgRel] = .ok u ∧
      combineOutKG = List.insertionSort combinedLE u ∧
      ∀ s : ℚ, combineOutKG.filter (fun y => decide (y.relevance_score = s))
        = u.filter (fun y => decide (y.relevance_score = s))) :=
  combine_results_spec [] [] [kgRel] combineOutKG rfl

/-- C7: for every pipeline run that completes, the Verify stage appends one
message to the transcript but leaves the response field unchanged — the
answer text returned by the pipeline is the Synthesize stage's completion
output, whatever the Verify stage's completion returns. -/
theorem verify_stage_frame (f : Prompt → Except String String)
    (st : AgentState) (final : AgentState)
    (h : runPipeline f st = .ok final) :
    ∃ st3, (search_agent f st >>= analysis_agent f >>= synthesis_agent f)
        = .ok st3 ∧
      fact_checker f st3 = .ok final ∧
      final.response = st3.response ∧
      (∃ v, f (.verify st3.response st3.documents) = .ok v ∧
        final.messages = st3.messages ++ [.ai v]) ∧
      (∃ findings q, f (.synthesize findings q) = .ok st3.response) := by
  unfold runPipeline at h
  obtain ⟨st3, h3, hfc⟩ := except_bind_ok h
  unfold fact_checker at hfc
  obtain ⟨v, hv, hpure⟩ := except_bind_ok hfc
  cases hpure
  obtain ⟨st2, h2, hsyn⟩ := except_bind_ok h3
  unfold synthesis_agent at hsyn
  cases han : st2.analysis with
  | none => rw [han] at hsyn; cases hsyn
  | some fs =>
      rw [han] at hsyn
      obtain ⟨y, hy, hjp⟩ := except_bind_ok hsyn
      cases hy
      obtain ⟨firstMsg, hfirst, hs3⟩ := except_bind_ok hjp
      obtain ⟨resp, hresp, hpure2⟩ := except_bind_ok hs3
      cases hpure2
      refine ⟨_, h3, ?_, rfl, ⟨v, hv, rfl⟩, ⟨fs, firstMsg.content, hresp⟩⟩
      unfold fact_checker
      rw [hv]
      rfl

/-- A scripted Completion Provider answering each stage with a fixed text. -/
def llmScripted : Prompt → Except String String := fun p =>
  match p with
  | .search _ _ => .ok "searched"
  | .analyze _ _ => .ok "analyzed"
  | .synthesize _ _ => .ok "synthesized"
  | .verify _ _ => .ok "verified"
  | .classify _ => .ok "classification"
  | .followUp _ _ => .ok "follow-ups"

/-- The initial pipeline state for a concrete question. -/
def stStart : AgentState :=
  { messages := [.human "What is microgravity?"], next := "search",
    documents := [], kg_context := [], analysis := none, response := "" }

/-- The final pipeline state of the scripted run. -/
def stFinal : AgentState :=
  { messages := [.human "What is microgravity?", .ai "searched",
      .ai "analyzed", .ai "synthesized", .ai "verified"],
    next := "search", documents := [], kg_context := [],
    analysis := some "analyzed", response := "synthesized" }

theorem verify_stage_frame_witness :
    ∃ st3, (search_agent llmScripted stStart >>= analysis_agent llmScripted
        >>= synthesis_agent llmScripted) = .ok st3 ∧
      fact_checker llmScripted st3 = .ok stFinal ∧
      stFinal.response = st3.response ∧
      (∃ v, llmScripted (.verify st3.response st3.documents) = .ok v ∧
        stFinal.messages = st3.messages ++ [.ai v]) ∧
      (∃ findings q, llmScripted (.synthesize findings q) = .ok st3.response) :=
  verify_stage_frame llmScripted stStart stFinal rfl

/-- C8 counterexample: for a concrete system and query, the hybrid search
invokes the embedding computation twice, not once. -/
theorem hybrid_search_embedding_once_false :
    (hybrid_search baseSys "bone" true).2 = ["bone", "bone"] ∧
    (hybrid_search baseSys "bone" true).2.length ≠ 1 := by
  have h : (hybrid_search baseSys "bone" true).2 = ["bone", "bone"] := rfl
  exact ⟨h, by rw [h]; decide⟩

/-- C8 amended: every hybrid retrieval invokes the embedding computation
exactly twice on the query text — once inside the document search and once
inside the chunk search — rather than computing one shared embedding. -/
theorem hybrid_search_embedding_invocations (sys : RAGSystem) (query : String)
    (include_kg : Bool) :
    (hybrid_search sys query include_kg).2 = [query, query] ∧
    (search_documents sys query 10).2 = [query] ∧
    (search_chunks sys query 20).2 = [query] := by
  refine ⟨?_, rfl, rfl⟩
  unfold hybrid_search
  dsimp only
  split <;> rfl

theorem classify_query_all_error (sys : RAGSystem) (query : String)
    (f : Prompt → Except String String) (E : String)
    (hllm : sys.llm = some f) (hf : ∀ p, f p = .error E) :
    classify_query sys query
      = { query := query, query_type := "factual",
          context := none, constraints := none } := by
  unfold classify_query
  rw [hllm]
  dsimp only
  rw [hf]

theorem search_agent_all_error (f : Prompt → Except String String) (E : String)
    (hf : ∀ p, f p = .error E) (st : AgentState) (m : Message)
    (hm : st.messages.getLast? = some m) :
    search_agent f st = .error E := by
  have hform : search_agent f st
      = (f (.search m.content st.documents) >>= fun response =>
          pure { st with messages := st.messages ++ [.ai response] }) := by
    unfold search_agent pyLast
    rw [hm]
    rfl
  rw [hform, hf]
  rfl

theorem execute_search_all_error (sys : RAGSystem)
    (f : Prompt → Except String String) (E : String)
    (hllm : sys.llm = some f) (hf : ∀ p, f p = .error E)
    (q : SearchQuery) (docs : List DocRec) (kg : List KGItem) :
    execute_search sys q docs kg = ExecResult.error E q.query := by
  unfold execute_search
  rw [hllm]
  dsimp only
  have hsa : search_agent f
      { messages := [.human q.query], next := "search", documents := docs,
        kg_context := kg, analysis := none, response := "" } = .error E :=
    search_agent_all_error f E hf _ (.human q.query) rfl
  unfold runPipeline
  rw [hsa]
  rfl

/-- C4 counterexample: with a system whose Completion Provider raises on
every call, `ask_question` returns query_type "factual", not "error". -/
def sysLLMDown : RAGSystem :=
  { baseSys with llm := some (fun _ => .error "provider down") }

theorem completion_failure_query_type_counterexample :
    (ask_question sysLLMDown "What is microgravity?" none).query_type
        = "factual" ∧
    (ask_question sysLLMDown "What is microgravity?" none).query_type
        ≠ "error" := by
  have h : (ask_question sysLLMDown "What is microgravity?" none).query_type
      = "factual" := rfl
  exact ⟨h, by rw [h]; decide⟩

/-- C4 corrected: if the Completion Provider raises on every call, the
reasoning pipeline aborts at its first stage (the search stage's provider
error is the reported pipeline error) and `ask_question` returns an Answer
with confidence 0.0, an empty source list and no follow-ups — but with
query_type "factual", the classifier's degraded default, not "error";
"error" is reserved for orchestrator-boundary exceptions. -/
theorem completion_provider_failure (sys : RAGSystem) (query : String)
    (f : Prompt → Except String String) (E : String)
    (hllm : sys.llm = some f) (hf : ∀ p, f p = .error E) :
    (ask_question sys query none).query_type = "factual" ∧
    (ask_question sys query none).confidence = 0 ∧
    (ask_question sys query none).sources = [] ∧
    (ask_question sys query none).follow_up_questions = [] ∧
    (ask_question sys query none).answer
      = "I encountered an error while processing your query: " ++ E ∧
    (∀ q docs kg, execute_search sys q docs kg = ExecResult.error E q.query) ∧
    (∀ st m, st.messages.getLast? = some m → search_agent f st = .error E ∧
      runPipeline f st = .error E) := by
  have hexecAll : ∀ q docs kg,
      execute_search sys q docs kg = ExecResult.error E q.query :=
    execute_search_all_error sys f E hllm hf
  have hga : generate_answer sys query (hybrid_search sys query true).1
      = { answer := "I encountered an error while processing your query: " ++ E,
          sources := [], follow_up_questions := [],
          query_type := "factual", confidence := 0 } := by
    unfold generate_answer
    rw [classify_query_all_error sys query f E hllm hf]
    dsimp only
    rw [hexecAll]
  have hbody : askQuestionBody sys query none
      = .ok { query := query,
              answer := "I encountered an error while processing your query: "
                ++ E,
              sources := [], follow_up_questions := [], confidence := 0,
              query_type := "factual", num_sources := 0,
              search_results := some (hybrid_search sys query true).1 } := by
    unfold askQuestionBody
    dsimp only
    rw [hga]
    rfl
  have hask : ask_question sys query none
      = { query := query,
          answer := "I encountered an error while processing your query: "
            ++ E,
          sources := [], follow_up_questions := [], confidence := 0,
          query_type := "factual", num_sources := 0,
          search_results := some (hybrid_search sys query true).1 } := by
    unfold ask_question
    rw [hbody]
  refine ⟨by rw [hask], by rw [hask], by rw [hask], by rw [hask],
    by rw [hask], hexecAll, ?_⟩
  intro st m hm
  have hsa := search_agent_all_error f E hf st m hm
  refine ⟨hsa, ?_⟩
  unfold runPipeline
  rw [hsa]
  rfl

theorem completion_provider_failure_witness :
    (ask_question sysLLMDown "q" none).query_type = "factual" ∧
    (ask_question sysLLMDown "q" none).confidence = 0 ∧
    (ask_question sysLLMDown "q" none).sources = [] ∧
    (ask_question sysLLMDown "q" none).follow_up_questions = [] :=
  have h := completion_provider_failure sysLLMDown "q"
    (fun _ => .error "provider down") "provider down" rfl (fun _ => rfl)
  ⟨h.1, h.2.1, h.2.2.1, h.2.2.2.1⟩

theorem extract_sources_length_le (sr : SearchResults) :
    (extract_sources sr).length ≤ 10 := by
  unfold extract_sources
  dsimp only
  exact List.length_take_le 10 _

theorem generate_follow_up_questions_length_le (sys : RAGSystem)
    (query : String) (answer : String) :
    (generate_follow_up_questions sys query answer).length ≤ 5 := by
  unfold generate_follow_up_questions
  cases sys.llm with
  | none => simp
  | some f =>
      dsimp only
      cases f (.followUp query (answer.take 1000)) with
      | error e => simp
      | ok content =>
          dsimp only
          cases sys.parse_first_json_array content with
          | none => simp
          | some questions =>
              dsimp only
              exact List.length_take_le 5 _

theorem generate_answer_shape (sys : RAGSystem) (query : String)
    (sr : SearchResults) :
    (generate_answer sys query sr).sources.length ≤ 10 ∧
    (generate_answer sys query sr).follow_up_questions.length ≤ 5 := by
  unfold generate_answer
  dsimp only
  cases execute_search sys (classify_query sys query) sr.documents
      sr.knowledge_graph with
  | success r q n k hist =>
      exact ⟨extract_sources_length_le sr,
        generate_follow_up_questions_length_le sys query r⟩
  | error e q => simp

theorem askQuestionBody_ok_fields (sys : RAGSystem) (query : String)
    (sid : Option String) (a : AnswerDict)
    (h : askQuestionBody sys query sid = .ok a) :
    a.query = query ∧
    a.sources = (generate_answer sys query (hybrid_search sys query true).1).sources ∧
    a.follow_up_questions
      = (generate_answer sys query (hybrid_search sys query true).1).follow_up_questions ∧
    a.num_sources = a.sources.length := by
  unfold askQuestionBody at h
  cases sid with
  | none =>
      cases h
      exact ⟨rfl, rfl, rfl, rfl⟩
  | some s =>
      obtain ⟨u1, h1, h2⟩ := except_bind_ok h
      obtain ⟨u2, h3, h4⟩ := except_bind_ok h2
      cases h4
      exact ⟨rfl, rfl, rfl, rfl⟩

/-- C1: for every query, session id and behaviour of the external
capabilities, `ask_question` returns a well-formed answer dictionary (it is
total — it never raises): the query is echoed, `num_sources` equals the
length of the source list, at most 10 sources and at most 5 follow-ups are
returned; and when an uncaught exception reaches the orchestrator boundary
the answer carries the explanatory message, confidence 0.0, query_type
"error" and zero sources. -/
theorem ask_question_spec (sys : RAGSystem) (query : String)
    (session_id : Option String) :
    ((ask_question sys query session_id).query = query ∧
     (ask_question sys query session_id).num_sources
        = (ask_question sys query session_id).sources.length ∧
     (ask_question sys query session_id).sources.length ≤ 10 ∧
     (ask_question sys query session_id).follow_up_questions.length ≤ 5) ∧
    (∀ e, askQuestionBody sys query session_id = .error e →
      ask_question sys query session_id =
        { query := query,
          answer := "I'm sorry, I encountered an error: " ++ e,
          sources := [], follow_up_questions := [], confidence := 0,
          query_type := "error", num_sources := 0,
          search_results := none }) := by
  constructor
  · cases hb : askQuestionBody sys query session_id with
    | error e =>
        have hq : ask_question sys query session_id
            = { query := query,
                answer := "I'm sorry, I encountered an error: " ++ e,
                sources := [], follow_up_questions := [], confidence := 0,
                query_type := "error", num_sources := 0,
                search_results := none } := by
          unfold ask_question
          rw [hb]
        rw [hq]
        refine ⟨rfl, rfl, by simp, by simp⟩
    | ok a =>
        have hq : ask_question sys query session_id = a := by
          unfold ask_question
          rw [hb]
        obtain ⟨h1, h2, h3, h4⟩ := askQuestionBody_ok_fields sys query
          session_id a hb
        rw [hq]
        refine ⟨h1, h4, ?_, ?_⟩
        · rw [h2]
          exact (generate_answer_shape sys query _).1
        · rw [h3]
          exact (generate_answer_shape sys query _).2
  · intro e he
    unfold ask_question
    rw [he]

/-- A system whose chat store raises on every append. -/
def sysChatFail : RAGSystem :=
  { baseSys with add_chat_message := fun _ _ _ _ => .error "db down" }

theorem ask_question_spec_witness :
    ask_question sysChatFail "q" (some "s") =
      { query := "q",
        answer := "I'm sorry, I encountered an error: " ++ "db down",
        sources := [], follow_up_questions := [], confidence := 0,
        query_type := "error", num_sources := 0,
        search_results := none } :=
  (ask_question_spec sysChatFail "q" (some "s")).2 "db down" rfl
